import Mathlib

/-!
# AdvancedCronJob admission validation — shallow embedding

Shallow embedding of `pkg/controller/advancedcronjob/advancedcronjob_utils.go`
(the AdvancedCronJob validating-webhook utilities plus the controller's
`formatSchedule` helper).  External collaborators (cron parser, timezone
database, label-selector compiler, image normalizer, pod-template validator,
decoder) are modelled as explicit parameters, following the spec's
external-interface section.  Go pointers become `Option`, Go slices become
`List`, Go `int32`/`int64` become `Int`.
-/

namespace ACJ

/-- `strings.Contains`: `pat` occurs as a contiguous substring of `s`.
Implemented over the character lists. -/
def listHasPre : List Char → List Char → Bool
  | [], _ => true
  | _ :: _, [] => false
  | a :: as, b :: bs => a == b && listHasPre as bs

/-- `strings.Contains(s, pat)`. -/
def strContains (s pat : String) : Bool :=
  s.toList.tails.any (fun t => listHasPre pat.toList t)

/-- `strings.EqualFold` restricted to the ASCII arguments used in this file:
characterwise lower-casing of the two strings. -/
def eqFold (a b : String) : Bool :=
  a.toList.map Char.toLower == b.toList.map Char.toLower

/-- The nested `for i; for j > i` duplicate scan over a string slice
(`validateImageListPullJobTemplateSpec` images loop and the
`sets.NewString` length comparison for selector names). -/
def hasDup : List String → Bool
  | [] => false
  | x :: xs => xs.contains x || hasDup xs

/-- Modelled from the documented semantics of Go's `time.LoadLocation`
(external timezone-database collaborator, spec §6): the names `""`, `"UTC"`
and `"Local"` resolve without any database lookup; every other name resolves
exactly when it is present in the (case-sensitive) IANA database `tzdb`. -/
def loadLocationOk (tzdb : List String) (name : String) : Bool :=
  name == "" || name == "UTC" || name == "Local" || tzdb.contains name

/-- A representative case-sensitive IANA timezone database: standard zone
names; no entry is spelled `"local"` or `"LOCAL"`. -/
def stdTzdb : List String :=
  ["UTC", "America/New_York", "Asia/Shanghai", "Europe/Paris"]

/-! ## Data model (`apis/apps/v1beta1` shapes used by the validator) -/

/-- `metav1.LabelSelector`: both slices are nil-able in Go; the contents are
opaque to this validator (only the external compiler inspects them). -/
structure LabelSelector where
  matchLabels : Option (List (String × String))
  matchExpressions : Option (List String)
  deriving DecidableEq

/-- `ImageListPullJobTemplateSpec`'s `spec.selector`: an embedded label
selector plus an optional explicit name list. -/
structure ILPSelector where
  labelSelector : LabelSelector
  names : Option (List String)
  deriving DecidableEq

/-- `spec.podSelector`: an embedded label selector. -/
structure PodSelector where
  labelSelector : LabelSelector
  deriving DecidableEq

/-- `pullPolicy` (`TimeoutSeconds *int32`; other fields unused here). -/
structure PullPolicy where
  timeoutSeconds : Option Int
  deriving DecidableEq

/-- `completionPolicy`: a string-typed discriminant plus two optional bounds
(`ActiveDeadlineSeconds *int64`, `TTLSecondsAfterFinished *int32`). -/
structure CompletionPolicy where
  type : String
  activeDeadlineSeconds : Option Int
  ttlSecondsAfterFinished : Option Int
  deriving DecidableEq

/-- The fields of `ImageListPullJobSpec` read by the validator. -/
structure ImageListPullJobSpec where
  selector : Option ILPSelector
  podSelector : Option PodSelector
  images : List String
  pullPolicy : Option PullPolicy
  completionPolicy : CompletionPolicy
  deriving DecidableEq

/-- `ImageListPullJobTemplateSpec` (metadata omitted — unused). -/
structure ImageListPullJobTemplateSpec where
  spec : ImageListPullJobSpec
  deriving DecidableEq

/-- A container of a pod template; only the image matters to the claims. -/
structure Container where
  image : String
  deriving DecidableEq

/-- `v1.PodSpec`, reduced to its container list. -/
structure PodSpec where
  containers : List Container
  deriving DecidableEq

/-- `v1.PodTemplateSpec`. -/
structure PodTemplateSpec where
  spec : PodSpec
  deriving DecidableEq

/-- The `Spec` of `batchv1.JobTemplateSpec` / `BroadcastJobTemplateSpec`,
reduced to the embedded pod template. -/
structure JobSpecInner where
  template : PodTemplateSpec
  deriving DecidableEq

/-- `batchv1.JobTemplateSpec`. -/
structure JobTemplateSpec where
  spec : JobSpecInner
  deriving DecidableEq

/-- `appsv1beta1.BroadcastJobTemplateSpec`. -/
structure BroadcastJobTemplateSpec where
  spec : JobSpecInner
  deriving DecidableEq

/-- `CronJobTemplate`: three independently nil-able template pointers. -/
structure CronJobTemplate where
  jobTemplate : Option JobTemplateSpec
  broadcastJobTemplate : Option BroadcastJobTemplateSpec
  imageListPullJobTemplate : Option ImageListPullJobTemplateSpec
  deriving DecidableEq

/-- `appsv1beta1.AdvancedCronJobSpec`. -/
structure AdvancedCronJobSpec where
  schedule : String
  timeZone : Option String
  concurrencyPolicy : String
  paused : Option Bool
  startingDeadlineSeconds : Option Int
  successfulJobsHistoryLimit : Option Int
  failedJobsHistoryLimit : Option Int
  template : CronJobTemplate
  deriving DecidableEq

/-- `appsv1beta1.AdvancedCronJob` (object metadata omitted — the claims only
concern the spec). -/
structure AdvancedCronJob where
  spec : AdvancedCronJobSpec
  deriving DecidableEq

/-! ## Validation errors

One constructor per distinct error site of the Go file; the constructor
identity encodes the field path the Go code attaches (noted per case). -/

/-- The validation errors `advancedcronjob_utils.go` can produce. -/
inductive ACJErr where
  /-- wrapped result of the external `ValidateObjectMeta(Update)` -/
  | metaErr (msg : String)
  /-- `spec.schedule`: "schedule cannot be empty" -/
  | scheduleEmpty
  /-- `spec.schedule`: cron parse failure (message from the parser) -/
  | scheduleCron (msg : String)
  /-- `spec.schedule`: "cannot use both timeZone field and TZ or CRON_TZ" -/
  | scheduleTZAmbiguous
  /-- `spec.timeZone`: "timeZone must be nil or non-empty string" -/
  | timeZoneEmpty
  /-- `spec.timeZone`: "timeZone must be an explicit time zone" -/
  | timeZoneLocal
  /-- `spec.timeZone`: `time.LoadLocation` failure -/
  | timeZoneLoad
  /-- `spec.startingDeadlineSeconds` negative -/
  | startingDeadlineNeg
  /-- `spec.successfulJobsHistoryLimit` negative -/
  | successHistoryNeg
  /-- `spec.failedJobsHistoryLimit` negative -/
  | failedHistoryNeg
  /-- `spec.template`: "spec must have one template" -/
  | templateNone
  /-- `spec.template`: "spec can have only one template" -/
  | templateMany
  /-- `spec.spec.concurrencyPolicy`: "should be Replace or Forbid" -/
  | concurrencyInvalid (policy : String)
  /-- wrapped result of the external pod-template conversion/validation -/
  | podTemplateErr (msg : String)
  /-- `...spec.selector`: "can not set both names and labelSelector" -/
  | ilpSelectorNamesAndLabels
  /-- `...spec.selector.labelSelector`: "invalid selector" -/
  | ilpSelectorBadLabel
  /-- `...spec.selector.names`: "duplicated name in selector names" -/
  | ilpSelectorDupNames
  /-- `...spec`: "can not set both selector and podSelector" -/
  | ilpSelectorAndPodSelector
  /-- `...spec.podSelector.labelSelector`: "invalid selector" -/
  | ilpPodSelectorBadLabel
  /-- `...spec.images`: "image can not be empty" -/
  | imagesEmpty
  /-- `...spec.images`: "the maximum number of images cannot > 255" -/
  | imagesTooMany
  /-- `...spec.images`: "images cannot have duplicate values" -/
  | imagesDup
  /-- `...spec.images`: "invalid image <img>" -/
  | imagesInvalidRef (img : String)
  /-- `...spec.completionPolicy.activeDeadlineSeconds`: "> 86400" -/
  | cpADSBound
  /-- `...spec.completionPolicy.activeDeadlineSeconds`: "must be greater
  than pullPolicy.timeoutSeconds" -/
  | cpADSTimeout
  /-- `...spec.completionPolicy.ttlSecondsAfterFinished`: "> 259200" -/
  | cpTTLBound
  /-- `...spec.completionPolicy.type`: "should be Always" -/
  | cpType (t : String)
  /-- `spec`: the single aggregate forbidden-fields update error -/
  | updateForbidden
  deriving DecidableEq

/-- Predicate: the aggregate forbidden-fields update error. -/
def isUpdateForbiddenErr : ACJErr → Bool
  | .updateForbidden => true
  | _ => false

/-- Predicate: the two template-exclusivity errors. -/
def isExclusivityErr : ACJErr → Bool
  | .templateNone => true
  | .templateMany => true
  | _ => false

/-- Predicate: the four image-list errors (field path `...spec.images`). -/
def isImagesErr : ACJErr → Bool
  | .imagesEmpty => true
  | .imagesTooMany => true
  | .imagesDup => true
  | .imagesInvalidRef _ => true
  | _ => false

/-- Predicate: the two completion-policy numeric-bound errors. -/
def isBoundErr : ACJErr → Bool
  | .cpADSBound => true
  | .cpTTLBound => true
  | _ => false

/-- Predicate: the schedule/timezone ambiguity error. -/
def isAmbiguityErr : ACJErr → Bool
  | .scheduleTZAmbiguous => true
  | _ => false

/-- Predicate: every error the image-list-pull-job sub-validator can emit. -/
def isIlpErr : ACJErr → Bool
  | .ilpSelectorNamesAndLabels => true
  | .ilpSelectorBadLabel => true
  | .ilpSelectorDupNames => true
  | .ilpSelectorAndPodSelector => true
  | .ilpPodSelectorBadLabel => true
  | .imagesEmpty => true
  | .imagesTooMany => true
  | .imagesDup => true
  | .imagesInvalidRef _ => true
  | .cpADSBound => true
  | .cpADSTimeout => true
  | .cpTTLBound => true
  | .cpType _ => true
  | _ => false

/-! ## Cron parser collaborator and schedule validation -/

/-- Outcome of the external `cron.ParseStandard` collaborator: success, an
ordinary parse error, or a runtime fault (Go panic) with its rendering. -/
inductive CronParseOutcome where
  | ok
  | fail (msg : String)
  | panicked (msg : String)
  deriving DecidableEq

/-- `validateCronSchedule`: runs the parser behind a `recover` boundary; a
panic is converted into the error `"invalid cron schedule: <fault>"`, an
ordinary parse error is passed through, success yields no error. -/
def validateCronSchedule (parseStandard : String → CronParseOutcome)
    (schedule : String) : Option String :=
  match parseStandard schedule with
  | .ok => none
  | .fail m => some m
  | .panicked m => some ("invalid cron schedule: " ++ m)

/-- `validateAdvancedCronJobSpecSchedule`: empty-schedule check, defensive
cron parse, and the `TZ`-substring/timeZone-field ambiguity check, all
appended (no early return). -/
def validateAdvancedCronJobSpecSchedule (parseStandard : String → CronParseOutcome)
    (spec : AdvancedCronJobSpec) : List ACJErr :=
  (if spec.schedule.length = 0 then [ACJErr.scheduleEmpty] else []) ++
  (match validateCronSchedule parseStandard spec.schedule with
   | some m => [ACJErr.scheduleCron m]
   | none => []) ++
  (if strContains spec.schedule "TZ" && spec.timeZone.isSome then
     [ACJErr.scheduleTZAmbiguous]
   else [])

/-- `validateTimeZone`: nil is valid; empty string returns immediately; the
case-insensitive `Local` check and the `time.LoadLocation` lookup are both
performed (their errors accumulate). -/
def validateTimeZone (tzdb : List String) (timeZone : Option String) : List ACJErr :=
  match timeZone with
  | none => []
  | some z =>
    if z.length = 0 then [ACJErr.timeZoneEmpty]
    else
      (if eqFold z "Local" then [ACJErr.timeZoneLocal] else []) ++
      (if loadLocationOk tzdb z then [] else [ACJErr.timeZoneLoad])

/-! ## Image-list-pull-job template validation

Every error branch of `validateImageListPullJobTemplateSpec` is an immediate
`return append(allErrs, ...)` on an empty `allErrs`, so the function returns
at most one error; it is embedded as a first-error chain of blocks in source
order (selector, podSelector, images, completionPolicy). -/

/-- `MaxActiveDeadLineSeconds = 3600 * 24`. -/
def maxActiveDeadLineSeconds : Int := 3600 * 24

/-- `MaxTTLSecondsAfterFinished = 3600 * 24 * 3`. -/
def maxTTLSecondsAfterFinished : Int := 3600 * 24 * 3

/-- The `spec.selector.names` duplicate check (`sets.NewString` length
comparison). -/
def namesDupCheck (sel : ILPSelector) : Option ACJErr :=
  match sel.names with
  | some ns => if hasDup ns then some ACJErr.ilpSelectorDupNames else none
  | none => none

/-- The `spec.selector` block: label-selector/names exclusivity, label
compilation, then the names duplicate check. -/
def selBlock (labelOk : LabelSelector → Bool) (s : ImageListPullJobSpec) :
    Option ACJErr :=
  match s.selector with
  | none => none
  | some sel =>
    if sel.labelSelector.matchLabels.isSome
        || sel.labelSelector.matchExpressions.isSome then
      if sel.names.isSome then some ACJErr.ilpSelectorNamesAndLabels
      else if !labelOk sel.labelSelector then some ACJErr.ilpSelectorBadLabel
      else namesDupCheck sel
    else namesDupCheck sel

/-- The `spec.podSelector` block: exclusivity with `selector`, then label
compilation. -/
def podBlock (labelOk : LabelSelector → Bool) (s : ImageListPullJobSpec) :
    Option ACJErr :=
  match s.podSelector with
  | none => none
  | some ps =>
    if s.selector.isSome then some ACJErr.ilpSelectorAndPodSelector
    else if !labelOk ps.labelSelector then some ACJErr.ilpPodSelectorBadLabel
    else none

/-- The `spec.images` block, in source order: empty, more than 255 entries,
pairwise duplicate, first non-normalizable reference. -/
def imagesBlock (normalizeOk : String → Bool) (s : ImageListPullJobSpec) :
    Option ACJErr :=
  if s.images.isEmpty then some ACJErr.imagesEmpty
  else if s.images.length > 255 then some ACJErr.imagesTooMany
  else if hasDup s.images then some ACJErr.imagesDup
  else
    match s.images.find? (fun i => !normalizeOk i) with
    | some i => some (ACJErr.imagesInvalidRef i)
    | none => none

/-- Condition of the first `Always` check:
`ActiveDeadlineSeconds != nil && *ActiveDeadlineSeconds > MaxActiveDeadLineSeconds`. -/
def adsTooBigCheck (s : ImageListPullJobSpec) : Bool :=
  match s.completionPolicy.activeDeadlineSeconds with
  | some d => decide (d > maxActiveDeadLineSeconds)
  | none => false

/-- Condition of the second `Always` check: all three pointers set and
`int64(*TimeoutSeconds) > *ActiveDeadlineSeconds`. -/
def adsBelowTimeoutCheck (s : ImageListPullJobSpec) : Bool :=
  match s.completionPolicy.activeDeadlineSeconds, s.pullPolicy with
  | some d, some pp =>
    match pp.timeoutSeconds with
    | some t => decide (t > d)
    | none => false
  | _, _ => false

/-- Condition of the third `Always` check:
`TTLSecondsAfterFinished != nil && *TTLSecondsAfterFinished > MaxTTLSecondsAfterFinished`. -/
def ttlTooBigCheck (s : ImageListPullJobSpec) : Bool :=
  match s.completionPolicy.ttlSecondsAfterFinished with
  | some u => decide (u > maxTTLSecondsAfterFinished)
  | none => false

/-- The `spec.completionPolicy` switch: under `Always` the three checks run
in order, each returning immediately; any other type returns the
invalid-type error immediately. -/
def cpBlock (s : ImageListPullJobSpec) : Option ACJErr :=
  if s.completionPolicy.type = "Always" then
    if adsTooBigCheck s then some ACJErr.cpADSBound
    else if adsBelowTimeoutCheck s then some ACJErr.cpADSTimeout
    else if ttlTooBigCheck s then some ACJErr.cpTTLBound
    else none
  else some (ACJErr.cpType s.completionPolicy.type)

/-- First error among the four blocks, in source order. -/
def ilpCheck (labelOk : LabelSelector → Bool) (normalizeOk : String → Bool)
    (s : ImageListPullJobSpec) : Option ACJErr :=
  match selBlock labelOk s with
  | some e => some e
  | none =>
    match podBlock labelOk s with
    | some e => some e
    | none =>
      match imagesBlock normalizeOk s with
      | some e => some e
      | none => cpBlock s

/-- `validateImageListPullJobTemplateSpec`. -/
def validateImageListPullJobTemplateSpec (labelOk : LabelSelector → Bool)
    (normalizeOk : String → Bool) (ilp : ImageListPullJobTemplateSpec) :
    List ACJErr :=
  (ilpCheck labelOk normalizeOk ilp.spec).toList

/-! ## Template exclusivity and full spec validation -/

/-- The external collaborators of the validator (spec §6), as one bundle:
the cron parser, the timezone database, the label-selector compiler
(`LabelSelectorAsSelector` succeeding), the image normalizer
(`NormalizeImageRef` succeeding), and the two pod-template
conversion+validation pipelines (their error messages). -/
structure Collaborators where
  parseStandard : String → CronParseOutcome
  tzdb : List String
  labelOk : LabelSelector → Bool
  normalizeOk : String → Bool
  validateJobPodTemplate : JobTemplateSpec → List String
  validateBrPodTemplate : BroadcastJobTemplateSpec → List String

/-- Number of populated template variants (`templateCount` in the source). -/
def templateCount (t : CronJobTemplate) : Nat :=
  (if t.jobTemplate.isSome then 1 else 0) +
  (if t.broadcastJobTemplate.isSome then 1 else 0) +
  (if t.imageListPullJobTemplate.isSome then 1 else 0)

/-- `validateAdvancedCronJobSpecTemplate`: per-kind validation of whichever
templates are populated (for the image-list-pull kind, preceded by the
`concurrencyPolicy ∈ {Replace, Forbid}` check), then the exclusivity check
on the populated-variant count. -/
def validateAdvancedCronJobSpecTemplate (C : Collaborators)
    (spec : AdvancedCronJobSpec) : List ACJErr :=
  (match spec.template.jobTemplate with
   | some j => (C.validateJobPodTemplate j).map ACJErr.podTemplateErr
   | none => []) ++
  (match spec.template.broadcastJobTemplate with
   | some b => (C.validateBrPodTemplate b).map ACJErr.podTemplateErr
   | none => []) ++
  (match spec.template.imageListPullJobTemplate with
   | some t =>
     (if spec.concurrencyPolicy = "Replace" ∨ spec.concurrencyPolicy = "Forbid"
      then []
      else [ACJErr.concurrencyInvalid spec.concurrencyPolicy]) ++
     validateImageListPullJobTemplateSpec C.labelOk C.normalizeOk t
   | none => []) ++
  (if templateCount spec.template = 0 then [ACJErr.templateNone]
   else if templateCount spec.template > 1 then [ACJErr.templateMany]
   else [])

/-- `validateAdvancedCronJobSpec`: schedule, template, the three
non-negativity checks, and the timezone, all appended. -/
def validateAdvancedCronJobSpec (C : Collaborators)
    (spec : AdvancedCronJobSpec) : List ACJErr :=
  validateAdvancedCronJobSpecSchedule C.parseStandard spec ++
  validateAdvancedCronJobSpecTemplate C spec ++
  (match spec.startingDeadlineSeconds with
   | some v => if v < 0 then [ACJErr.startingDeadlineNeg] else []
   | none => []) ++
  (match spec.successfulJobsHistoryLimit with
   | some v => if v < 0 then [ACJErr.successHistoryNeg] else []
   | none => []) ++
  (match spec.failedJobsHistoryLimit with
   | some v => if v < 0 then [ACJErr.failedHistoryNeg] else []
   | none => []) ++
  validateTimeZone C.tzdb spec.timeZone

/-! ## Update guard -/

/-- The clone-and-restore step of `validateAdvancedCronJobUpdate`: deep-copy
the new spec, overwrite the seven allow-listed mutable fields with the old
values, and additionally overwrite `imageListPullJobTemplate` when the old
object has it set. -/
def updateGuardClone (objSpec oldSpec : AdvancedCronJobSpec) :
    AdvancedCronJobSpec :=
  let c := { objSpec with
    schedule := oldSpec.schedule
    concurrencyPolicy := oldSpec.concurrencyPolicy
    successfulJobsHistoryLimit := oldSpec.successfulJobsHistoryLimit
    failedJobsHistoryLimit := oldSpec.failedJobsHistoryLimit
    startingDeadlineSeconds := oldSpec.startingDeadlineSeconds
    paused := oldSpec.paused
    timeZone := oldSpec.timeZone }
  match oldSpec.template.imageListPullJobTemplate with
  | some t =>
    { c with template := { c.template with imageListPullJobTemplate := some t } }
  | none => c

/-- The forbidden-fields portion of `validateAdvancedCronJobUpdate`: the
patched clone is deep-compared against the old spec; any residual difference
yields the single aggregate forbidden error. -/
def updateForbiddenErrs (objSpec oldSpec : AdvancedCronJobSpec) : List ACJErr :=
  if updateGuardClone objSpec oldSpec = oldSpec then []
  else [ACJErr.updateForbidden]

/-- `validateAdvancedCronJobUpdate`: object-meta update validation (external,
its messages wrapped), full spec validation of the new object, then the
forbidden-fields check. -/
def validateAdvancedCronJobUpdate (metaUpdateErrs : List String)
    (C : Collaborators) (objSpec oldSpec : AdvancedCronJobSpec) : List ACJErr :=
  metaUpdateErrs.map ACJErr.metaErr ++
  validateAdvancedCronJobSpec C objSpec ++
  updateForbiddenErrs objSpec oldSpec

/-! ## Controller helpers and decoding -/

/-- `formatSchedule` from the controller utilities: keep a schedule that
already embeds `TZ`; otherwise, with a timezone set, prefix `TZ=<zone> ` when
the zone loads and fall back to the unchanged schedule when it does not. -/
def formatSchedule (tzdb : List String) (acj : AdvancedCronJob) : String :=
  if strContains acj.spec.schedule "TZ" then acj.spec.schedule
  else
    match acj.spec.timeZone with
    | some tz =>
      if loadLocationOk tzdb tz then "TZ=" ++ tz ++ " " ++ acj.spec.schedule
      else acj.spec.schedule
    | none => acj.spec.schedule

/-- The v1alpha1 shape of the resource, opaque here: it is only threaded
between the decode and convert collaborators. -/
structure V1alpha1AdvancedCronJob where
  raw : String
  deriving DecidableEq

/-- `appsv1beta1.GroupVersion.Version`. -/
def v1beta1Version : String := "v1beta1"

/-- `appsv1alpha1.GroupVersion.Version`. -/
def v1alpha1Version : String := "v1alpha1"

/-- `decodeAdvancedCronJob` (new-object path): a switch on the declared
resource version with NO default branch — an unrecognized version falls
through and returns a nil error, leaving `obj` (the zero-valued out
parameter) untouched. -/
def decodeAdvancedCronJob (decodeBeta : Except String AdvancedCronJob)
    (decodeAlpha : Except String V1alpha1AdvancedCronJob)
    (convertTo : V1alpha1AdvancedCronJob → Except String AdvancedCronJob)
    (version : String) (obj : AdvancedCronJob) : Except String AdvancedCronJob :=
  if version = v1beta1Version then decodeBeta
  else if version = v1alpha1Version then
    match decodeAlpha with
    | .error e => .error e
    | .ok a =>
      match convertTo a with
      | .error e => .error ("failed to convert v1alpha1->v1beta1: " ++ e)
      | .ok o => .ok o
  else .ok obj

/-- `decodeAdvancedCronJobFromRaw` (old-object path): the same switch but
with a default branch failing on an unsupported version. -/
def decodeAdvancedCronJobFromRaw (decodeBeta : Except String AdvancedCronJob)
    (decodeAlpha : Except String V1alpha1AdvancedCronJob)
    (convertTo : V1alpha1AdvancedCronJob → Except String AdvancedCronJob)
    (version : String) (_obj : AdvancedCronJob) : Except String AdvancedCronJob :=
  if version = v1beta1Version then decodeBeta
  else if version = v1alpha1Version then
    match decodeAlpha with
    | .error e => .error e
    | .ok a =>
      match convertTo a with
      | .error e => .error ("failed to convert v1alpha1->v1beta1: " ++ e)
      | .ok o => .ok o
  else .error ("unsupported version: " ++ version)

/-! ## Statement helpers -/

/-- Assemble an image-list-pull template with no selectors. -/
def mkIlpSpec (imgs : List String) (pp : Option PullPolicy)
    (cp : CompletionPolicy) : ImageListPullJobTemplateSpec :=
  ⟨⟨none, none, imgs, pp, cp⟩⟩

/-- The image list passes all four image tiers. -/
def imagesOk (normalizeOk : String → Bool) (imgs : List String) : Bool :=
  !imgs.isEmpty && decide (imgs.length ≤ 255) && !hasDup imgs
    && imgs.all normalizeOk

/-- A parser collaborator that faults on every input, with a Go-style
rendering of the fault value. -/
def panickingCron : String → CronParseOutcome :=
  fun _ => CronParseOutcome.panicked "runtime error: index out of range"

/-- A minimal spec carrying a given schedule and no templates. -/
def bareSpec (schedule : String) : AdvancedCronJobSpec :=
  { schedule := schedule
    timeZone := none
    concurrencyPolicy := "Allow"
    paused := none
    startingDeadlineSeconds := none
    successfulJobsHistoryLimit := none
    failedJobsHistoryLimit := none
    template := ⟨none, none, none⟩ }

/-- An object whose schedule has no `TZ` and whose timezone is a standard
loadable zone. -/
def tzACJ : AdvancedCronJob :=
  ⟨{ bareSpec "* * * * *" with timeZone := some "Asia/Shanghai" }⟩

/-- The Go zero value of the out parameter of `decodeAdvancedCronJob`. -/
def zeroACJ : AdvancedCronJob :=
  ⟨{ schedule := ""
     timeZone := none
     concurrencyPolicy := ""
     paused := none
     startingDeadlineSeconds := none
     successfulJobsHistoryLimit := none
     failedJobsHistoryLimit := none
     template := ⟨none, none, none⟩ }⟩

/-! ## Classification of image-list-pull-job errors -/

/-- Errors from the selector-names duplicate check are ILP errors. -/
lemma namesDupCheck_isIlp (sel : ILPSelector) (e : ACJErr)
    (h : namesDupCheck sel = some e) : isIlpErr e = true := by
  unfold namesDupCheck at h
  repeat' split at h
  all_goals first | (cases h; rfl) | cases h

/-- Errors from the selector block are ILP errors. -/
lemma selBlock_isIlp (labelOk : LabelSelector → Bool) (s : ImageListPullJobSpec)
    (e : ACJErr) (h : selBlock labelOk s = some e) : isIlpErr e = true := by
  unfold selBlock at h
  repeat' split at h
  all_goals first
    | (cases h; rfl)
    | cases h
    | exact namesDupCheck_isIlp _ _ h

/-- Errors from the pod-selector block are ILP errors. -/
lemma podBlock_isIlp (labelOk : LabelSelector → Bool) (s : ImageListPullJobSpec)
    (e : ACJErr) (h : podBlock labelOk s = some e) : isIlpErr e = true := by
  unfold podBlock at h
  repeat' split at h
  all_goals first | (cases h; rfl) | cases h

/-- Errors from the images block are ILP errors, indeed images errors. -/
lemma imagesBlock_isImages (normalizeOk : String → Bool)
    (s : ImageListPullJobSpec) (e : ACJErr)
    (h : imagesBlock normalizeOk s = some e) : isImagesErr e = true := by
  unfold imagesBlock at h
  repeat' split at h
  all_goals first | (cases h; rfl) | cases h

/-- Errors from the completion-policy block are ILP errors. -/
lemma cpBlock_isIlp (s : ImageListPullJobSpec) (e : ACJErr)
    (h : cpBlock s = some e) : isIlpErr e = true := by
  unfold cpBlock at h
  repeat' split at h
  all_goals first | (cases h; rfl) | cases h

/-- Errors from the completion-policy block are never images errors. -/
lemma cpBlock_not_images (s : ImageListPullJobSpec) (e : ACJErr)
    (h : cpBlock s = some e) : isImagesErr e = false := by
  unfold cpBlock at h
  repeat' split at h
  all_goals first | (cases h; rfl) | cases h

/-- Every error of the image-list-pull-job validator is an ILP error. -/
lemma ilpCheck_isIlp (labelOk : LabelSelector → Bool)
    (normalizeOk : String → Bool) (s : ImageListPullJobSpec) (e : ACJErr)
    (h : ilpCheck labelOk normalizeOk s = some e) : isIlpErr e = true := by
  unfold ilpCheck at h
  cases hsel : selBlock labelOk s with
  | some e1 =>
    simp only [hsel, Option.some.injEq] at h
    subst h
    exact selBlock_isIlp _ _ _ hsel
  | none =>
    simp only [hsel] at h
    cases hpod : podBlock labelOk s with
    | some e2 =>
      simp only [hpod, Option.some.injEq] at h
      subst h
      exact podBlock_isIlp _ _ _ hpod
    | none =>
      simp only [hpod] at h
      cases himg : imagesBlock normalizeOk s with
      | some e3 =>
        simp only [himg, Option.some.injEq] at h
        subst h
        have := imagesBlock_isImages _ _ _ himg
        cases e3 <;> simp_all [isImagesErr, isIlpErr]
      | none =>
        simp only [himg] at h
        exact cpBlock_isIlp _ _ h

/-- Membership form of the classification. -/
lemma validateILP_mem_isIlp (labelOk : LabelSelector → Bool)
    (normalizeOk : String → Bool) (ilp : ImageListPullJobTemplateSpec)
    (e : ACJErr)
    (h : e ∈ validateImageListPullJobTemplateSpec labelOk normalizeOk ilp) :
    isIlpErr e = true := by
  unfold validateImageListPullJobTemplateSpec at h
  cases hc : ilpCheck labelOk normalizeOk ilp.spec with
  | none =>
    rw [hc] at h
    cases h
  | some e1 =>
    rw [hc] at h
    simp only [Option.toList_some, List.mem_singleton] at h
    subst h
    exact ilpCheck_isIlp _ _ _ _ hc

/-- ILP errors are not exclusivity errors. -/
lemma isIlp_not_excl (e : ACJErr) (h : isIlpErr e = true) :
    isExclusivityErr e = false := by
  cases e <;> simp_all [isIlpErr, isExclusivityErr]

/-- ILP errors are not the forbidden-fields update error. -/
lemma isIlp_not_forbidden (e : ACJErr) (h : isIlpErr e = true) :
    isUpdateForbiddenErr e = false := by
  cases e <;> simp_all [isIlpErr, isUpdateForbiddenErr]

/-- The pairwise duplicate scan agrees with the mathematical notion: it
fires exactly on lists that are not duplicate-free. -/
lemma hasDup_eq_true_iff (l : List String) : hasDup l = true ↔ ¬ l.Nodup := by
  induction l with
  | nil => simp [hasDup]
  | cons x xs ih =>
    simp only [hasDup, Bool.or_eq_true, ih, List.nodup_cons, List.contains,
      List.elem_iff]
    tauto

/-! ## C6 — image-list tier order and short-circuiting -/

/-- Spec-side tier description of the image-list checks, in the claim's
words: empty, more than 255 entries, a duplicate entry (not duplicate-free),
first non-normalizable reference; `none` when all tiers pass. -/
def claimImagesTierErr (normalizeOk : String → Bool) (imgs : List String) :
    Option ACJErr :=
  if imgs = [] then some ACJErr.imagesEmpty
  else if 255 < imgs.length then some ACJErr.imagesTooMany
  else if ¬ imgs.Nodup then some ACJErr.imagesDup
  else
    match imgs.find? (fun i => !normalizeOk i) with
    | some i => some (ACJErr.imagesInvalidRef i)
    | none => none

/-- The source images block computes exactly the spec-side tier result. -/
lemma imagesBlock_eq_claim (normalizeOk : String → Bool)
    (s : ImageListPullJobSpec) :
    imagesBlock normalizeOk s = claimImagesTierErr normalizeOk s.images := by
  unfold imagesBlock claimImagesTierErr
  by_cases h0 : s.images = []
  · simp [h0]
  · have h0' : s.images.isEmpty = false := by
      simp [List.isEmpty_iff, h0]
    rw [if_neg h0]
    simp only [h0', Bool.false_eq_true, if_false]
    by_cases h1 : 255 < s.images.length
    · simp [h1]
    · rw [if_neg h1, if_neg h1]
      by_cases h2 : s.images.Nodup
      · have hd : hasDup s.images = false := by
          rw [← Bool.not_eq_true, hasDup_eq_true_iff]
          simpa using h2
        simp [hd, h2]
      · have hd : hasDup s.images = true := (hasDup_eq_true_iff _).mpr h2
        simp [hd, h2]

/-- C6: with the image list as the only populated input, the image-list
checks run in tier order and the validator returns exactly one error for
the first violated tier; when every tier passes, no image-list error is
produced (regardless of the completion-policy outcome). -/
theorem images_tier_first_error (labelOk : LabelSelector → Bool)
    (normalizeOk : String → Bool) (imgs : List String) (pp : Option PullPolicy)
    (cp : CompletionPolicy) :
    match claimImagesTierErr normalizeOk imgs with
    | some e =>
      validateImageListPullJobTemplateSpec labelOk normalizeOk
        (mkIlpSpec imgs pp cp) = [e]
    | none =>
      (validateImageListPullJobTemplateSpec labelOk normalizeOk
        (mkIlpSpec imgs pp cp)).filter isImagesErr = [] := by
  have hsel : selBlock labelOk (mkIlpSpec imgs pp cp).spec = none := rfl
  have hpod : podBlock labelOk (mkIlpSpec imgs pp cp).spec = none := rfl
  have himg : imagesBlock normalizeOk (mkIlpSpec imgs pp cp).spec
      = claimImagesTierErr normalizeOk imgs :=
    imagesBlock_eq_claim normalizeOk (mkIlpSpec imgs pp cp).spec
  cases htier : claimImagesTierErr normalizeOk imgs with
  | some e =>
    simp [validateImageListPullJobTemplateSpec, ilpCheck, hsel, hpod, himg,
      htier]
  | none =>
    rw [htier] at himg
    cases hcp : cpBlock (mkIlpSpec imgs pp cp).spec with
    | none =>
      simp [validateImageListPullJobTemplateSpec, ilpCheck, hsel, hpod, himg,
        hcp]
    | some e =>
      have he : isImagesErr e = false := cpBlock_not_images _ _ hcp
      simp [validateImageListPullJobTemplateSpec, ilpCheck, hsel, hpod, himg,
        hcp, he]

/-- Witness for C6 at the spec scenario `images=["nginx","nginx"]`: the
duplicate tier fires with exactly the one duplicate-values error. -/
theorem images_tier_first_error_witness :
    validateImageListPullJobTemplateSpec (fun _ => true) (fun _ => true)
      (mkIlpSpec ["nginx", "nginx"] none ⟨"Always", none, none⟩)
      = [ACJErr.imagesDup] := by
  have h := images_tier_first_error (fun _ => true) (fun _ => true)
    ["nginx", "nginx"] none ⟨"Always", none, none⟩
  rw [show claimImagesTierErr (fun _ => true) ["nginx", "nginx"]
    = some ACJErr.imagesDup from by decide] at h
  exact h

/-! ## C8 — completion-policy checks, and C2 — the deadline/timeout rule -/

/-- A passing image list lets the images block through. -/
lemma imagesBlock_none_of_ok (normalizeOk : String → Bool)
    (s : ImageListPullJobSpec) (h : imagesOk normalizeOk s.images = true) :
    imagesBlock normalizeOk s = none := by
  unfold imagesOk at h
  simp only [Bool.and_eq_true, Bool.not_eq_true', decide_eq_true_eq] at h
  obtain ⟨⟨⟨hne, hlen⟩, hdup⟩, hall⟩ := h
  unfold imagesBlock
  rw [hne]
  simp only [Bool.false_eq_true, if_false]
  rw [if_neg (by omega), hdup]
  simp only [Bool.false_eq_true, if_false]
  have hfind : s.images.find? (fun i => !normalizeOk i) = none := by
    rw [List.find?_eq_none]
    intro x hx
    simp only [List.all_eq_true] at hall
    simp [hall x hx]
  rw [hfind]

/-- With no selectors and a passing image list, the validator's outcome is
exactly the completion-policy block's. -/
lemma validateILP_eq_cpBlock (labelOk : LabelSelector → Bool)
    (normalizeOk : String → Bool) (imgs : List String) (pp : Option PullPolicy)
    (cp : CompletionPolicy) (himgs : imagesOk normalizeOk imgs = true) :
    validateImageListPullJobTemplateSpec labelOk normalizeOk
        (mkIlpSpec imgs pp cp)
      = (cpBlock (mkIlpSpec imgs pp cp).spec).toList := by
  unfold validateImageListPullJobTemplateSpec ilpCheck
  have h1 : selBlock labelOk (mkIlpSpec imgs pp cp).spec = none := rfl
  have h2 : podBlock labelOk (mkIlpSpec imgs pp cp).spec = none := rfl
  have h3 : imagesBlock normalizeOk (mkIlpSpec imgs pp cp).spec = none :=
    imagesBlock_none_of_ok normalizeOk (mkIlpSpec imgs pp cp).spec himgs
  simp only [h1, h2, h3]

/-- C8: once the earlier tiers pass, a non-`Always` completion-policy type
yields exactly the one invalid-type error with no further completion-policy
checks evaluated; under `Always`, a set deadline above 86400 yields the
deadline-bound error, a set TTL above 259200 (with the deadline checks
passing) yields the TTL-bound error, and in-bounds values yield no bound
error. -/
theorem completionPolicy_checks (labelOk : LabelSelector → Bool)
    (normalizeOk : String → Bool) (imgs : List String) (pp : Option PullPolicy)
    (cp : CompletionPolicy) (himgs : imagesOk normalizeOk imgs = true) :
    (cp.type ≠ "Always" →
      validateImageListPullJobTemplateSpec labelOk normalizeOk
          (mkIlpSpec imgs pp cp)
        = [ACJErr.cpType cp.type]) ∧
    (∀ d, cp.type = "Always" → cp.activeDeadlineSeconds = some d →
      d > maxActiveDeadLineSeconds →
      validateImageListPullJobTemplateSpec labelOk normalizeOk
          (mkIlpSpec imgs pp cp)
        = [ACJErr.cpADSBound]) ∧
    (∀ u, cp.type = "Always" →
      adsTooBigCheck (mkIlpSpec imgs pp cp).spec = false →
      adsBelowTimeoutCheck (mkIlpSpec imgs pp cp).spec = false →
      cp.ttlSecondsAfterFinished = some u → u > maxTTLSecondsAfterFinished →
      validateImageListPullJobTemplateSpec labelOk normalizeOk
          (mkIlpSpec imgs pp cp)
        = [ACJErr.cpTTLBound]) ∧
    (cp.type = "Always" →
      adsTooBigCheck (mkIlpSpec imgs pp cp).spec = false →
      ttlTooBigCheck (mkIlpSpec imgs pp cp).spec = false →
      (validateImageListPullJobTemplateSpec labelOk normalizeOk
          (mkIlpSpec imgs pp cp)).filter isBoundErr = []) := by
  have hout := validateILP_eq_cpBlock labelOk normalizeOk imgs pp cp himgs
  refine ⟨?_, ?_, ?_, ?_⟩
  · intro hty
    rw [hout]
    unfold cpBlock
    simp only [mkIlpSpec]
    rw [if_neg hty]
    rfl
  · intro d hty hd hbig
    rw [hout]
    unfold cpBlock
    have h1 : adsTooBigCheck (mkIlpSpec imgs pp cp).spec = true := by
      simp [adsTooBigCheck, mkIlpSpec, hd, hbig]
    simp only [mkIlpSpec] at h1 ⊢
    rw [if_pos hty, h1]
    rfl
  · intro u hty h2 h3 hu hbig
    rw [hout]
    unfold cpBlock
    have h4 : ttlTooBigCheck (mkIlpSpec imgs pp cp).spec = true := by
      simp [ttlTooBigCheck, mkIlpSpec, hu, hbig]
    simp only [mkIlpSpec] at h2 h3 h4 ⊢
    rw [if_pos hty]
    simp only [h2, h3, h4]
    rfl
  · intro hty h2 h4
    rw [hout]
    unfold cpBlock
    simp only [mkIlpSpec] at h2 h4 ⊢
    rw [if_pos hty]
    simp only [h2, h4]
    by_cases hb : adsBelowTimeoutCheck (mkIlpSpec imgs pp cp).spec = true <;>
      simp only [mkIlpSpec] at hb <;>
      simp [hb, isBoundErr]

/-- Witness for C8 at the spec scenario `completionPolicy.type="Never"`. -/
theorem completionPolicy_checks_witness :
    validateImageListPullJobTemplateSpec (fun _ => true) (fun _ => true)
      (mkIlpSpec ["nginx"] none ⟨"Never", none, none⟩)
      = [ACJErr.cpType "Never"] :=
  (completionPolicy_checks (fun _ => true) (fun _ => true) ["nginx"] none
    ⟨"Never", none, none⟩ (by decide)).1 (by decide)

/-- C2 (amended): with both the deadline and the pull timeout set (and the
deadline within its absolute bound), the cross-field error appears exactly
when the timeout strictly exceeds the deadline; a deadline equal to the
timeout is accepted. -/
theorem adsTimeout_err_iff (labelOk : LabelSelector → Bool)
    (normalizeOk : String → Bool) (imgs : List String) (d t : Int)
    (ttl : Option Int) (himgs : imagesOk normalizeOk imgs = true)
    (hd : d ≤ maxActiveDeadLineSeconds) :
    ACJErr.cpADSTimeout ∈ validateImageListPullJobTemplateSpec labelOk
        normalizeOk (mkIlpSpec imgs (some ⟨some t⟩) ⟨"Always", some d, ttl⟩)
      ↔ t > d := by
  have hnb : ¬ (d > maxActiveDeadLineSeconds) := by omega
  rw [validateILP_eq_cpBlock labelOk normalizeOk imgs (some ⟨some t⟩)
    ⟨"Always", some d, ttl⟩ himgs]
  by_cases hc : t > d
  · simp [cpBlock, mkIlpSpec, adsTooBigCheck, adsBelowTimeoutCheck, hnb, hc]
  · simp only [cpBlock, mkIlpSpec, adsTooBigCheck, adsBelowTimeoutCheck,
      ttlTooBigCheck]
    simp [hnb, hc]

/-- Witness for C2: timeout 101 strictly above deadline 100 produces the
cross-field error. -/
theorem adsTimeout_err_iff_witness :
    ACJErr.cpADSTimeout ∈ validateImageListPullJobTemplateSpec
      (fun _ => true) (fun _ => true)
      (mkIlpSpec ["nginx"] (some ⟨some 101⟩) ⟨"Always", some 100, none⟩) :=
  (adsTimeout_err_iff (fun _ => true) (fun _ => true) ["nginx"] 100 101 none
    (by decide) (by decide)).mpr (by decide)

/-- C2 counterexample to the claim as stated: deadline equal to the timeout
(both 100) produces no error at all, though the claim requires a rejection
when the deadline does not strictly exceed the timeout. -/
theorem adsTimeout_eq_accepted_cex :
    validateImageListPullJobTemplateSpec (fun _ => true) (fun _ => true)
      (mkIlpSpec ["nginx"] (some ⟨some 100⟩) ⟨"Always", some 100, none⟩)
      = [] := by decide

/-! ## C5 — template exclusivity -/

/-- Wrapped pod-template messages are never exclusivity errors. -/
lemma filter_excl_map_pod (l : List String) :
    (l.map ACJErr.podTemplateErr).filter isExclusivityErr = [] := by
  rw [List.filter_eq_nil_iff]
  intro e he
  obtain ⟨x, _, rfl⟩ := List.mem_map.mp he
  simp [isExclusivityErr]

/-- The image-list-pull-job validator never emits an exclusivity error. -/
lemma filter_excl_ilp (labelOk : LabelSelector → Bool)
    (normalizeOk : String → Bool) (ilp : ImageListPullJobTemplateSpec) :
    (validateImageListPullJobTemplateSpec labelOk normalizeOk ilp).filter
      isExclusivityErr = [] := by
  rw [List.filter_eq_nil_iff]
  intro e he
  simp [isIlp_not_excl e (validateILP_mem_isIlp _ _ _ _ he)]

/-- C5: the exclusivity errors of the Template Validator are exactly
determined by the populated-variant count — one must-supply-one error when
zero variants are populated, one only-one error when two or more are, and
none when exactly one is — regardless of the outcomes of the per-kind
sub-validations. -/
theorem template_exclusivity_filter (C : Collaborators)
    (spec : AdvancedCronJobSpec) :
    (validateAdvancedCronJobSpecTemplate C spec).filter isExclusivityErr
      = if templateCount spec.template = 0 then [ACJErr.templateNone]
        else if templateCount spec.template > 1 then [ACJErr.templateMany]
        else [] := by
  unfold validateAdvancedCronJobSpecTemplate
  rw [List.filter_append, List.filter_append, List.filter_append]
  have hjob : (match spec.template.jobTemplate with
      | some j => (C.validateJobPodTemplate j).map ACJErr.podTemplateErr
      | none => []).filter isExclusivityErr = [] := by
    cases spec.template.jobTemplate with
    | none => rfl
    | some j => exact filter_excl_map_pod _
  have hbr : (match spec.template.broadcastJobTemplate with
      | some b => (C.validateBrPodTemplate b).map ACJErr.podTemplateErr
      | none => []).filter isExclusivityErr = [] := by
    cases spec.template.broadcastJobTemplate with
    | none => rfl
    | some b => exact filter_excl_map_pod _
  have hilp : (match spec.template.imageListPullJobTemplate with
      | some t =>
        (if spec.concurrencyPolicy = "Replace" ∨ spec.concurrencyPolicy = "Forbid"
         then []
         else [ACJErr.concurrencyInvalid spec.concurrencyPolicy]) ++
        validateImageListPullJobTemplateSpec C.labelOk C.normalizeOk t
      | none => []).filter isExclusivityErr = [] := by
    cases spec.template.imageListPullJobTemplate with
    | none => rfl
    | some t =>
      rw [List.filter_append, filter_excl_ilp]
      by_cases hcp : spec.concurrencyPolicy = "Replace"
          ∨ spec.concurrencyPolicy = "Forbid" <;>
        simp [hcp, isExclusivityErr]
  rw [hjob, hbr, hilp]
  by_cases h0 : templateCount spec.template = 0
  · simp [h0, isExclusivityErr]
  · by_cases h1 : templateCount spec.template > 1 <;>
      simp [h0, h1, isExclusivityErr]

/-! ## C1 — update guard allow-list -/

/-- Spec-side description of an acceptable update, in the claim's words: the
new spec may differ from the old one only in the allow-listed fields
(schedule, concurrencyPolicy, successfulJobsHistoryLimit,
failedJobsHistoryLimit, startingDeadlineSeconds, paused, timeZone) and —
only when the old object's imageListPullJobTemplate is non-nil — in the
imageListPullJobTemplate field; equivalently, all remaining fields agree. -/
def claimOnlyAllowListedDiff (objSpec oldSpec : AdvancedCronJobSpec) : Bool :=
  decide (objSpec.template.jobTemplate = oldSpec.template.jobTemplate) &&
  decide (objSpec.template.broadcastJobTemplate
    = oldSpec.template.broadcastJobTemplate) &&
  (match oldSpec.template.imageListPullJobTemplate with
   | none => decide (objSpec.template.imageListPullJobTemplate = none)
   | some _ => true)

/-- The clone-and-compare check fires exactly outside the allow-list. -/
lemma updateForbidden_core (objSpec oldSpec : AdvancedCronJobSpec) :
    updateForbiddenErrs objSpec oldSpec
      = if claimOnlyAllowListedDiff objSpec oldSpec then []
        else [ACJErr.updateForbidden] := by
  unfold updateForbiddenErrs updateGuardClone claimOnlyAllowListedDiff
  obtain ⟨nsch, ntz, ncp, nps, nsd, nsh, nfh, ntpl⟩ := objSpec
  obtain ⟨osch, otz, ocp, ops, osd, osh, ofh, otpl⟩ := oldSpec
  obtain ⟨njt, nbjt, nilpt⟩ := ntpl
  obtain ⟨ojt, objt, oilpt⟩ := otpl
  cases oilpt with
  | none =>
    by_cases h1 : njt = ojt <;> by_cases h2 : nbjt = objt <;>
      by_cases h3 : nilpt = (none : Option ImageListPullJobTemplateSpec) <;>
      simp_all [AdvancedCronJobSpec.mk.injEq, CronJobTemplate.mk.injEq]
  | some t =>
    by_cases h1 : njt = ojt <;> by_cases h2 : nbjt = objt <;>
      simp_all [AdvancedCronJobSpec.mk.injEq, CronJobTemplate.mk.injEq]

/-- Schedule-validator errors are never the forbidden-fields error. -/
lemma schedule_mem_shape (parseStandard : String → CronParseOutcome)
    (spec : AdvancedCronJobSpec) (e : ACJErr)
    (h : e ∈ validateAdvancedCronJobSpecSchedule parseStandard spec) :
    isUpdateForbiddenErr e = false := by
  unfold validateAdvancedCronJobSpecSchedule at h
  simp only [List.mem_append] at h
  rcases h with (h | h) | h <;>
    · repeat' split at h
      all_goals simp_all [isUpdateForbiddenErr]

/-- Timezone-validator errors are never the forbidden-fields error. -/
lemma timeZone_mem_shape (tzdb : List String) (tz : Option String) (e : ACJErr)
    (h : e ∈ validateTimeZone tzdb tz) : isUpdateForbiddenErr e = false := by
  unfold validateTimeZone at h
  repeat' split at h
  all_goals simp_all [isUpdateForbiddenErr]
  all_goals (rcases h with rfl | rfl <;> rfl)

/-- Template-validator errors are never the forbidden-fields error. -/
lemma template_mem_shape (C : Collaborators) (spec : AdvancedCronJobSpec)
    (e : ACJErr) (h : e ∈ validateAdvancedCronJobSpecTemplate C spec) :
    isUpdateForbiddenErr e = false := by
  unfold validateAdvancedCronJobSpecTemplate at h
  simp only [List.mem_append] at h
  rcases h with ((hj | hb) | hi) | hx
  · split at hj
    · obtain ⟨x, _, rfl⟩ := List.mem_map.mp hj
      simp [isUpdateForbiddenErr]
    · cases hj
  · split at hb
    · obtain ⟨x, _, rfl⟩ := List.mem_map.mp hb
      simp [isUpdateForbiddenErr]
    · cases hb
  · split at hi
    · rcases List.mem_append.mp hi with hc | hv
      · split at hc <;> simp_all [isUpdateForbiddenErr]
      · exact isIlp_not_forbidden e (validateILP_mem_isIlp _ _ _ _ hv)
    · cases hi
  · repeat' split at hx
    all_goals simp_all [isUpdateForbiddenErr]

/-- Full-spec-validation errors are never the forbidden-fields error. -/
lemma spec_mem_shape (C : Collaborators) (spec : AdvancedCronJobSpec)
    (e : ACJErr) (h : e ∈ validateAdvancedCronJobSpec C spec) :
    isUpdateForbiddenErr e = false := by
  unfold validateAdvancedCronJobSpec at h
  simp only [List.mem_append] at h
  rcases h with ((((hs | ht) | h1) | h2) | h3) | htz
  · exact schedule_mem_shape _ _ _ hs
  · exact template_mem_shape _ _ _ ht
  · repeat' split at h1
    all_goals simp_all [isUpdateForbiddenErr]
  · repeat' split at h2
    all_goals simp_all [isUpdateForbiddenErr]
  · repeat' split at h3
    all_goals simp_all [isUpdateForbiddenErr]
  · exact timeZone_mem_shape _ _ _ htz

/-- A job template whose single container runs the given image. -/
def jobTpl (img : String) : JobTemplateSpec := ⟨⟨⟨⟨[⟨img⟩]⟩⟩⟩⟩

/-- A full spec carrying a job template with the given container image and
the given paused flag. -/
def jobSpecEx (img : String) (p : Option Bool) : AdvancedCronJobSpec :=
  { bareSpec "* * * * *" with
    paused := p
    template := ⟨some (jobTpl img), none, none⟩ }

/-- C1: the Update Guard emits no forbidden-fields error exactly when the
new spec differs from the old one only in the allow-listed mutable fields
(plus, when the old object's imageListPullJobTemplate is non-nil, that
template); otherwise it emits exactly one aggregate forbidden error.  In
particular a paused-only change is accepted and a change to the job
template's container image is rejected. -/
theorem updateGuard_forbidden_iff_allowlist (metaUpdateErrs : List String)
    (C : Collaborators) (objSpec oldSpec : AdvancedCronJobSpec) :
    ((validateAdvancedCronJobUpdate metaUpdateErrs C objSpec oldSpec).filter
        isUpdateForbiddenErr
      = if claimOnlyAllowListedDiff objSpec oldSpec then []
        else [ACJErr.updateForbidden]) ∧
    updateForbiddenErrs (jobSpecEx "nginx" (some true))
      (jobSpecEx "nginx" (some false)) = [] ∧
    updateForbiddenErrs (jobSpecEx "nginx:v2" none) (jobSpecEx "nginx" none)
      = [ACJErr.updateForbidden] := by
  refine ⟨?_, by decide, by decide⟩
  unfold validateAdvancedCronJobUpdate
  rw [List.filter_append, List.filter_append]
  have hmeta : (metaUpdateErrs.map ACJErr.metaErr).filter isUpdateForbiddenErr
      = [] := by
    rw [List.filter_eq_nil_iff]
    intro e he
    obtain ⟨x, _, rfl⟩ := List.mem_map.mp he
    simp [isUpdateForbiddenErr]
  have hspec : (validateAdvancedCronJobSpec C objSpec).filter
      isUpdateForbiddenErr = [] := by
    rw [List.filter_eq_nil_iff]
    intro e he
    simp [spec_mem_shape C objSpec e he]
  rw [hmeta, hspec, updateForbidden_core]
  by_cases h : claimOnlyAllowListedDiff objSpec oldSpec <;>
    simp [h, isUpdateForbiddenErr]

/-! ## C4 — schedule/timezone ambiguity -/

/-- C4: for every spec, the Schedule Validator emits exactly one ambiguity
error when the schedule contains the substring `TZ` and the timeZone field
is non-nil, and no ambiguity error otherwise. -/
theorem schedule_ambiguity_count (parseStandard : String → CronParseOutcome)
    (spec : AdvancedCronJobSpec) :
    (validateAdvancedCronJobSpecSchedule parseStandard spec).countP isAmbiguityErr
      = if strContains spec.schedule "TZ" && spec.timeZone.isSome then 1 else 0 := by
  unfold validateAdvancedCronJobSpecSchedule
  rcases h : validateCronSchedule parseStandard spec.schedule with _ | m <;>
    by_cases h1 : spec.schedule.length = 0 <;>
    by_cases h2 : (strContains spec.schedule "TZ" && spec.timeZone.isSome) = true <;>
    simp [h1, h2, List.countP_append, List.countP_cons, isAmbiguityErr]

/-! ## C7 — panic containment around the cron parser -/

/-- C7: a parser runtime fault never escapes `validateCronSchedule`: it is
converted to the ordinary error value `"invalid cron schedule: <fault>"`,
which the Schedule Validator reports as a validation error at
`spec.schedule`. -/
theorem cron_panic_contained (parseStandard : String → CronParseOutcome)
    (spec : AdvancedCronJobSpec) (m : String)
    (h : parseStandard spec.schedule = CronParseOutcome.panicked m) :
    validateCronSchedule parseStandard spec.schedule
        = some ("invalid cron schedule: " ++ m) ∧
    ACJErr.scheduleCron ("invalid cron schedule: " ++ m)
        ∈ validateAdvancedCronJobSpecSchedule parseStandard spec := by
  have hv : validateCronSchedule parseStandard spec.schedule
      = some ("invalid cron schedule: " ++ m) := by
    unfold validateCronSchedule
    rw [h]
  refine ⟨hv, ?_⟩
  unfold validateAdvancedCronJobSpecSchedule
  rw [hv]
  simp

/-- Witness for C7 at a concrete always-faulting parser and schedule. -/
theorem cron_panic_contained_witness :
    validateCronSchedule panickingCron "* * * *"
        = some ("invalid cron schedule: " ++ "runtime error: index out of range") ∧
    ACJErr.scheduleCron ("invalid cron schedule: " ++ "runtime error: index out of range")
        ∈ validateAdvancedCronJobSpecSchedule panickingCron (bareSpec "* * * *") :=
  cron_panic_contained panickingCron (bareSpec "* * * *")
    "runtime error: index out of range" rfl

/-! ## C3 — the "Local" timezone sentinel -/

/-- C3 (amended): the exact string `"Local"` yields exactly the one
explicit-zone error (Go `time.LoadLocation` resolves exactly `"Local"`
without a database lookup); any other casing also fails the database lookup,
so it yields the explicit-zone error plus the load error. -/
theorem timeZone_local_casing_errors (tzdb : List String) (z : String) :
    validateTimeZone tzdb (some "Local") = [ACJErr.timeZoneLocal] ∧
    (eqFold z "Local" = true → z ≠ "Local" → tzdb.contains z = false →
      validateTimeZone tzdb (some z)
        = [ACJErr.timeZoneLocal, ACJErr.timeZoneLoad]) := by
  constructor
  · have h1 : ¬ ("Local" : String).length = 0 := by decide
    have h2 : eqFold "Local" "Local" = true := by decide
    have hload : loadLocationOk tzdb "Local" = true := by
      unfold loadLocationOk
      simp
    simp [validateTimeZone, h1, h2, hload]
  · intro hf hne hdb
    have hzl : z.toList.map Char.toLower = ['l', 'o', 'c', 'a', 'l'] := by
      unfold eqFold at hf
      have h := beq_iff_eq.mp hf
      rw [show ("Local").toList.map Char.toLower = ['l', 'o', 'c', 'a', 'l']
        from by decide] at h
      exact h
    have hz' : z ≠ "" := by
      intro h0
      subst h0
      exact absurd hzl (by decide)
    have hz0 : ¬ z.length = 0 := by
      intro h0
      apply hz'
      cases z with
      | mk data =>
        simp [String.length, List.length_eq_zero] at h0
        subst h0
        rfl
    have hnotUTC : z ≠ "UTC" := by
      intro h0
      subst h0
      exact absurd hzl (by decide)
    have hload : loadLocationOk tzdb z = false := by
      unfold loadLocationOk
      rw [beq_eq_false_iff_ne.mpr hz', beq_eq_false_iff_ne.mpr hnotUTC,
        beq_eq_false_iff_ne.mpr hne, hdb]
      rfl
    simp [validateTimeZone, hz0, hf, hload]

/-- Witness for C3 at the standard database: one error for `"Local"`, two
for `"local"`. -/
theorem timeZone_local_casing_witness :
    validateTimeZone stdTzdb (some "Local") = [ACJErr.timeZoneLocal] ∧
    validateTimeZone stdTzdb (some "local")
      = [ACJErr.timeZoneLocal, ACJErr.timeZoneLoad] :=
  ⟨(timeZone_local_casing_errors stdTzdb "local").1,
   (timeZone_local_casing_errors stdTzdb "local").2 (by decide) (by decide)
     (by decide)⟩

/-- C3 counterexample to the claim as stated: for the casing `"local"` the
Timezone Validator returns two errors, not exactly one. -/
theorem timeZone_lowercase_local_two_errors_cex :
    (validateTimeZone stdTzdb (some "local")).length = 2 := by decide

/-! ## C9 — formatSchedule -/

/-- C9: `formatSchedule` keeps the schedule unchanged when it already
contains `TZ` or when no timezone is set; otherwise it prefixes
`TZ=<zone> ` when the zone loads and falls back to the unchanged schedule
when it does not. -/
theorem formatSchedule_cases (tzdb : List String) (acj : AdvancedCronJob) :
    (strContains acj.spec.schedule "TZ" = true →
      formatSchedule tzdb acj = acj.spec.schedule) ∧
    (acj.spec.timeZone = none → formatSchedule tzdb acj = acj.spec.schedule) ∧
    (∀ z, strContains acj.spec.schedule "TZ" = false →
      acj.spec.timeZone = some z → loadLocationOk tzdb z = true →
      formatSchedule tzdb acj = "TZ=" ++ z ++ " " ++ acj.spec.schedule) ∧
    (∀ z, strContains acj.spec.schedule "TZ" = false →
      acj.spec.timeZone = some z → loadLocationOk tzdb z = false →
      formatSchedule tzdb acj = acj.spec.schedule) := by
  refine ⟨?_, ?_, ?_, ?_⟩ <;> intros <;> simp_all [formatSchedule]

/-- Witness for C9: a loadable zone is prefixed onto a TZ-free schedule. -/
theorem formatSchedule_cases_witness :
    formatSchedule stdTzdb tzACJ = "TZ=" ++ "Asia/Shanghai" ++ " " ++ "* * * * *" :=
  (formatSchedule_cases stdTzdb tzACJ).2.2.1 "Asia/Shanghai" (by decide) rfl
    (by decide)

/-! ## C10 — decoding an unrecognized version -/

/-- C10: on an unrecognized declared version the new-object decode path
returns a nil error and leaves the zero-valued object untouched (for every
behavior of the decoder collaborators), while the old-object path fails with
the explicit unsupported-version error. -/
theorem decode_unknown_version_behavior (decodeBeta : Except String AdvancedCronJob)
    (decodeAlpha : Except String V1alpha1AdvancedCronJob)
    (convertTo : V1alpha1AdvancedCronJob → Except String AdvancedCronJob)
    (version : String) (obj : AdvancedCronJob)
    (hb : version ≠ v1beta1Version) (ha : version ≠ v1alpha1Version) :
    decodeAdvancedCronJob decodeBeta decodeAlpha convertTo version obj
        = Except.ok obj ∧
    decodeAdvancedCronJobFromRaw decodeBeta decodeAlpha convertTo version obj
        = Except.error ("unsupported version: " ++ version) := by
  constructor <;>
    simp [decodeAdvancedCronJob, decodeAdvancedCronJobFromRaw, hb, ha]

/-- Witness for C10 at the concrete version string `"v2"`. -/
theorem decode_unknown_version_witness :
    decodeAdvancedCronJob (Except.error "bad beta") (Except.error "bad alpha")
        (fun _ => Except.error "bad convert") "v2" zeroACJ = Except.ok zeroACJ ∧
    decodeAdvancedCronJobFromRaw (Except.error "bad beta") (Except.error "bad alpha")
        (fun _ => Except.error "bad convert") "v2" zeroACJ
        = Except.error ("unsupported version: " ++ "v2") :=
  decode_unknown_version_behavior _ _ _ "v2" zeroACJ (by decide) (by decide)

end ACJ
